import Mathlib

/-!
Shallow embedding of the pea2pea node library.

The embedding covers src/config.rs (NodeConfig and its defaults) and
src/node.rs (Node::new, Node::name, Node::adapt_stream, Node::accept_connection,
Node::initiate_connection, Node::disconnect, and the reader-task loop body).
The modules src/connections.rs and src/known_peers.rs are declared in
src/lib.rs but absent from the sources; their registries are modelled from the
spec where a claim depends on them, and each such definition says so in its
doc comment.

I/O is made explicit: the OS bind call and the TCP connect call are oracles
passed as arguments, socket streams are identified by numeric ids, and the
process-wide SEQUENTIAL_NODE_ID counter is threaded through as state.
-/

namespace Pea2pea

/-- A peer socket address (src uses std::net::SocketAddr purely as a key). -/
abbrev Addr := Nat

/-- NodeConfig, from src/config.rs. -/
structure NodeConfig where
  name : Option String
  desired_listening_port : Option Nat
  allow_random_port : Bool
  conn_read_buffer_size : Nat
  inbound_message_queue_depth : Nat
deriving DecidableEq

/-- The Default impl for NodeConfig, from src/config.rs. -/
def NodeConfig.default : NodeConfig :=
  { name := none
    desired_listening_port := none
    allow_random_port := true
    conn_read_buffer_size := 64 * 1024
    inbound_message_queue_depth := 256 }

/-- The names of the options recognized by NodeConfig, transcribed from the
fields of the struct in src/config.rs, in declaration order. -/
def nodeConfigOptions : List String :=
  ["name", "desired_listening_port", "allow_random_port",
   "conn_read_buffer_size", "inbound_message_queue_depth"]

/-- A TCP stream, identified by a numeric id; into_split yields its two halves,
which the embedding keeps as the same id. -/
structure TcpStream where
  id : Nat
deriving DecidableEq

/-- A connection as constructed at the call site in src/node.rs
(Connection::new(reader_task, writer, node)): the reader-task handle and the
writer half of the socket, both identified here by the stream id; the third
argument, the back-reference to the node, is implicit in the enclosing state.
No side tag is among the arguments. -/
structure Connection where
  readerTask : Nat
  writer : Nat
deriving DecidableEq

/-- Modelled from the spec: the Connections registry of src/connections.rs
(declared in src/lib.rs but missing from the sources): two maps partitioning
live connections into handshaking and handshaken, keyed by peer address. -/
structure Connections where
  handshaking : List (Addr × Connection)
  handshaken : List (Addr × Connection)
deriving DecidableEq

/-- The empty registry (the Default of the connections field of Node). -/
def Connections.empty : Connections := ⟨[], []⟩

/-- Modelled from the spec: is_connected(a) holds iff a is in the handshaking
map or in the handshaken map. -/
def Connections.is_connected (c : Connections) (a : Addr) : Bool :=
  (c.handshaking.lookup a).isSome || (c.handshaken.lookup a).isSome

/-- Modelled from the spec: disconnect removes the entry for the address from
whichever map holds it, returning whether an entry was removed. -/
def Connections.disconnect (c : Connections) (a : Addr) : Bool × Connections :=
  (c.is_connected a,
   ⟨c.handshaking.filter (fun p => p.1 != a),
    c.handshaken.filter (fun p => p.1 != a)⟩)

/-- Insertion into the handshaking map, as performed by Node::adapt_stream;
HashMap::insert replaces any previous entry under the same key. -/
def Connections.insertHandshaking (c : Connections) (a : Addr) (conn : Connection) :
    Connections :=
  ⟨(a, conn) :: c.handshaking.filter (fun p => p.1 != a), c.handshaken⟩

/-- Modelled from the spec: promotion atomically moves an entry from the
handshaking map to the handshaken map; an absent address leaves the registry
unchanged. -/
def Connections.promote (c : Connections) (a : Addr) : Connections :=
  match c.handshaking.lookup a with
  | some conn =>
      ⟨c.handshaking.filter (fun p => p.1 != a),
       (a, conn) :: c.handshaken.filter (fun p => p.1 != a)⟩
  | none => c

/-- Modelled from the spec: the per-peer statistics of src/known_peers.rs
(declared in src/lib.rs but missing from the sources); the first-seen and
last-seen timestamps are outside the embedding. -/
structure PeerStats where
  msgs_sent : Nat
  msgs_recv : Nat
  bytes_sent : Nat
  bytes_recv : Nat
  failures : Nat
deriving DecidableEq

/-- A freshly observed peer has all counters at zero. -/
def PeerStats.fresh : PeerStats := ⟨0, 0, 0, 0, 0⟩

/-- Modelled from the spec: the KnownPeers registry, a map from peer address
to its statistics. -/
structure KnownPeers where
  peers : List (Addr × PeerStats)
deriving DecidableEq

/-- Modelled from the spec: add creates an entry on first observation and
never overwrites an existing one. -/
def KnownPeers.add (k : KnownPeers) (a : Addr) : KnownPeers :=
  match k.peers.lookup a with
  | some _ => k
  | none => ⟨(a, PeerStats.fresh) :: k.peers⟩

/-- Modelled from the spec: register_failure bumps the failure counter of the
peer's entry. -/
def KnownPeers.register_failure (k : KnownPeers) (a : Addr) : KnownPeers :=
  ⟨k.peers.map (fun p =>
    if p.1 == a then (p.1, { p.2 with failures := p.2.failures + 1 }) else p)⟩

/-- Modelled from the spec: register_message bumps the received-message count
and received-byte count of the peer's entry. -/
def KnownPeers.register_message (k : KnownPeers) (a : Addr) (len : Nat) : KnownPeers :=
  ⟨k.peers.map (fun p =>
    if p.1 == a then
      (p.1, { p.2 with msgs_recv := p.2.msgs_recv + 1,
                       bytes_recv := p.2.bytes_recv + len })
    else p)⟩

/-- The state of a Node relevant to the registry claims: its Connections and
its KnownPeers (the connections and known_peers fields in src/node.rs). -/
structure NodeState where
  connections : Connections
  knownPeers : KnownPeers
deriving DecidableEq

/-- Node::adapt_stream from src/node.rs: split the stream into its two halves,
build a ConnectionReader, spawn the reader task (whose loop body is
reader_loop_step below and whose handle is identified by the stream id),
construct the Connection and insert it into the handshaking map. -/
def adapt_stream (st : NodeState) (stream : TcpStream) (a : Addr) : NodeState :=
  let connection : Connection := ⟨stream.id, stream.id⟩
  { st with connections := st.connections.insertHandshaking a connection }

/-- Node::accept_connection from src/node.rs: add the peer to KnownPeers, then
adapt the stream. -/
def accept_connection (st : NodeState) (stream : TcpStream) (a : Addr) : NodeState :=
  adapt_stream { st with knownPeers := st.knownPeers.add a } stream a

/-- The outcome of the TcpStream::connect call inside initiate_connection,
supplied as an oracle. -/
inductive ConnectOutcome where
  | ok (stream : TcpStream)
  | error (e : Nat)
deriving DecidableEq

/-- The io::Result returned by Node::initiate_connection. -/
inductive InitiateResult where
  | ok
  | ioError (e : Nat)
deriving DecidableEq

/-- Node::initiate_connection from src/node.rs: if already connecting or
connected, warn and return Ok(()) with the state unchanged; otherwise add the
peer to KnownPeers, connect (propagating a connect error), and adapt the
stream. -/
def initiate_connection (st : NodeState) (a : Addr) (connect : ConnectOutcome) :
    InitiateResult × NodeState :=
  if st.connections.is_connected a then (.ok, st)
  else
    let st1 := { st with knownPeers := st.knownPeers.add a }
    match connect with
    | .ok stream => (.ok, adapt_stream st1 stream a)
    | .error e => (.ioError e, st1)

/-- Node::disconnect from src/node.rs: delegate to Connections.disconnect,
log either way, and return whether an entry was removed. -/
def NodeState.disconnect (st : NodeState) (a : Addr) : Bool × NodeState :=
  let r := st.connections.disconnect a
  (r.1, { st with connections := r.2 })

/-- The outcome of ConnectionReader::read_message in one iteration of the
reader-task loop, supplied as an oracle; a message is a byte list. -/
inductive ReadOutcome where
  | ok (msg : List Nat)
  | error (e : Nat)
deriving DecidableEq

/-- One iteration of the reader-task loop spawned in Node::adapt_stream
(src/node.rs lines 109-131): on Ok the message is registered on KnownPeers
(and forwarded to the incoming_requests channel when one is set, an effect
outside this state); on Err a failure is registered on KnownPeers and the
error is logged. The returned Bool is whether the loop proceeds to the next
iteration; in the source both branches fall through to the next iteration,
and neither branch touches the Connections registry. -/
def reader_loop_step (st : NodeState) (a : Addr) (r : ReadOutcome) : NodeState × Bool :=
  match r with
  | .ok msg => ({ st with knownPeers := st.knownPeers.register_message a msg.length }, true)
  | .error _ => ({ st with knownPeers := st.knownPeers.register_failure a }, true)

/-- The outcome of a TcpListener::bind call, supplied as an oracle from the
requested port (port 0 asks the OS for a random free port); a successful bind
yields a listener identified by the actually bound port. -/
inductive BindOutcome where
  | ok (listener : Nat)
  | error (e : Nat)
deriving DecidableEq

/-- The outcome of Node::new: a bound listener, a propagated bind error, or
the panic taken when no desired port is given and a random port is
disallowed. -/
inductive NewOutcome where
  | ok (listener : Nat)
  | ioError (e : Nat)
  | panicked
deriving DecidableEq

/-- The listener-binding logic of Node::new (src/node.rs lines 45-67): try the
desired port if one is set, else a random port if allowed, else panic; on a
failed first bind, retry with port 0 when a random port is allowed
(propagating that second outcome), and return the bind error otherwise. -/
def nodeNewBind (cfg : NodeConfig) (bind : Nat → BindOutcome) : NewOutcome :=
  let desired : Option BindOutcome :=
    match cfg.desired_listening_port with
    | some port => some (bind port)
    | none => if cfg.allow_random_port then some (bind 0) else none
  match desired with
  | none => .panicked
  | some (.ok l) => .ok l
  | some (.error e) =>
      if cfg.allow_random_port then
        match bind 0 with
        | .ok l => .ok l
        | .error e2 => .ioError e2
      else .ioError e

/-- Decimal digits of n, least significant first, with explicit fuel; the
digit loop inside usize::to_string. -/
def toDigitsRev : Nat → Nat → List Nat
  | 0, _ => []
  | fuel + 1, n => if n = 0 then [] else n % 10 :: toDigitsRev fuel (n / 10)

/-- Decimal rendering of a usize: the embedding of the usize::to_string call
in Node::new. -/
def natDecimalString (n : Nat) : String :=
  if n = 0 then "0" else ⟨((toDigitsRev n n).map Nat.digitChar).reverse⟩

/-- The numeric value of a decimal digit character. -/
def charToDigit (c : Char) : Nat := c.toNat - 48

/-- Value of a least-significant-first digit list. -/
def ofDigitsRev : List Nat → Nat
  | [] => 0
  | d :: ds => d + 10 * ofDigitsRev ds

/-- Decoder of natDecimalString, used to establish its injectivity. -/
def decodeDecimal (s : String) : Nat :=
  ofDigitsRev (s.data.reverse.map charToDigit)

/-- The name-resolution step of Node::new (src/node.rs lines 37-43): an
unnamed config is assigned the decimal string of the process-wide
SEQUENTIAL_NODE_ID counter, which is then incremented; the counter is
threaded explicitly. -/
def resolveName (cfg : NodeConfig) (counter : Nat) : NodeConfig × Nat :=
  match cfg.name with
  | some _ => (cfg, counter)
  | none => ({ cfg with name := some (natDecimalString counter) }, counter + 1)

/-- Node::new from src/node.rs (lines 33-96): default the config, resolve the
name, bind the listener; yields the bind outcome, the resolved config and the
updated node-id counter. The accept loop spawned on success is modelled by
accept_connection applied per accepted stream. -/
def node_new (cfg0 : Option NodeConfig) (counter : Nat) (bind : Nat → BindOutcome) :
    NewOutcome × NodeConfig × Nat :=
  let resolved := resolveName (cfg0.getD NodeConfig.default) counter
  (nodeNewBind resolved.1 bind, resolved.1, resolved.2)

/-! Supporting lemmas. -/

theorem lookup_filter_self {β : Type} (l : List (Nat × β)) (a : Nat) :
    (l.filter (fun p => p.1 != a)).lookup a = none := by
  induction l with
  | nil => rfl
  | cons p t ih =>
    rw [List.filter_cons]
    by_cases h : p.1 = a
    · have hc : (p.1 != a) = false := by simp [h]
      rw [hc, if_neg (by simp)]
      exact ih
    · have hc : (p.1 != a) = true := by simp [h]
      rw [hc, if_pos rfl]
      have ha : (a == p.1) = false := by rw [beq_eq_false_iff_ne]; omega
      simp only [List.lookup, ha]
      exact ih

theorem lookup_filter_ne {β : Type} (l : List (Nat × β)) (a b : Nat) (h : b ≠ a) :
    (l.filter (fun p => p.1 != a)).lookup b = l.lookup b := by
  induction l with
  | nil => rfl
  | cons p t ih =>
    rw [List.filter_cons]
    by_cases hp : p.1 = a
    · have hc : (p.1 != a) = false := by simp [hp]
      rw [hc, if_neg (by simp)]
      have hb : (b == p.1) = false := by rw [beq_eq_false_iff_ne]; omega
      simp only [List.lookup, hb]
      exact ih
    · have hc : (p.1 != a) = true := by simp [hp]
      rw [hc, if_pos rfl]
      simp only [List.lookup]
      cases hb : b == p.1
      · exact ih
      · rfl

theorem ofDigitsRev_toDigitsRev :
    ∀ fuel n, n ≤ fuel → ofDigitsRev (toDigitsRev fuel n) = n := by
  intro fuel
  induction fuel with
  | zero =>
    intro n h
    have hn : n = 0 := by omega
    subst hn
    rfl
  | succ f ih =>
    intro n h
    by_cases hn : n = 0
    · subst hn
      simp [toDigitsRev, ofDigitsRev]
    · have hd : n / 10 < n := Nat.div_lt_self (Nat.pos_of_ne_zero hn) (by omega)
      have h10 : n / 10 ≤ f := by omega
      simp [toDigitsRev, hn, ofDigitsRev, ih _ h10]
      omega

theorem toDigitsRev_lt :
    ∀ fuel n, ∀ d ∈ toDigitsRev fuel n, d < 10 := by
  intro fuel
  induction fuel with
  | zero =>
    intro n d hd
    simp [toDigitsRev] at hd
  | succ f ih =>
    intro n d hd
    by_cases hn : n = 0
    · simp [toDigitsRev, hn] at hd
    · simp only [toDigitsRev, hn, if_false, List.mem_cons] at hd
      rcases hd with h | h
      · omega
      · exact ih _ _ h

theorem charToDigit_digitChar (d : Nat) (h : d < 10) :
    charToDigit (Nat.digitChar d) = d := by
  interval_cases d <;> decide

theorem decodeDecimal_natDecimalString (n : Nat) :
    decodeDecimal (natDecimalString n) = n := by
  by_cases hn : n = 0
  · subst hn
    decide
  · have hmap : ∀ l : List Nat, (∀ d ∈ l, d < 10) →
        (l.map Nat.digitChar).map charToDigit = l := by
      intro l hl
      induction l with
      | nil => rfl
      | cons d t ihl =>
        simp only [List.map_cons, List.cons.injEq]
        exact ⟨charToDigit_digitChar d (hl d (by simp)),
               ihl (fun x hx => hl x (by simp [hx]))⟩
    show ofDigitsRev ((natDecimalString n).data.reverse.map charToDigit) = n
    have hdata : (natDecimalString n).data
        = ((toDigitsRev n n).map Nat.digitChar).reverse := by
      simp [natDecimalString, hn]
    rw [hdata, List.reverse_reverse, hmap _ (toDigitsRev_lt n n)]
    exact ofDigitsRev_toDigitsRev n n (Nat.le_refl n)

theorem natDecimalString_injective (m n : Nat)
    (h : natDecimalString m = natDecimalString n) : m = n := by
  have hm := decodeDecimal_natDecimalString m
  rw [h, decodeDecimal_natDecimalString n] at hm
  omega

/-- A sample node state with address 7 handshaken, for concrete evaluations. -/
def sampleConnectedState : NodeState :=
  ⟨⟨[], [(7, ⟨1, 1⟩)]⟩, ⟨[(7, PeerStats.fresh)]⟩⟩

/-- A sample empty node state, for concrete evaluations. -/
def emptyState : NodeState := ⟨Connections.empty, ⟨[]⟩⟩

/-- A bind oracle that always succeeds, for concrete evaluations. -/
def bindOk : Nat → BindOutcome := fun _ => .ok 1

/-- A bind oracle that always fails with error 5, for concrete evaluations. -/
def bindErr : Nat → BindOutcome := fun _ => .error 5

/-- A config requesting port 9 with random ports disallowed, for concrete
evaluations. -/
def cfgPort9 : NodeConfig :=
  { NodeConfig.default with desired_listening_port := some 9, allow_random_port := false }

/-! The claims. -/

/-- C1: contrary to the claim, on a read error the reader-task loop of
src/node.rs registers a failure on KnownPeers but leaves the Connections
registry untouched and continues looping: the iteration yields an unchanged
connections field and continue = true, so no entry is removed, no task is
aborted and no Connection is dropped. This records the source behavior at the
failing input; the teardown the claim mandates does not happen. -/
theorem reader_error_keeps_connection_and_loops (st : NodeState) (a : Addr) (e : Nat) :
    reader_loop_step st a (.error e)
      = ({ st with knownPeers := st.knownPeers.register_failure a }, true)
    ∧ (reader_loop_step st a (.error e)).1.connections = st.connections
    ∧ (reader_loop_step st a (.error e)).2 = true :=
  ⟨rfl, rfl, rfl⟩

/-- C2 counterexample: with desired_listening_port None and allow_random_port
false, Node::new takes the panic branch instead of returning an error result
to the caller. -/
theorem node_new_no_port_panics_counterexample :
    (node_new (some { NodeConfig.default with allow_random_port := false })
        0 bindOk).1 = .panicked := rfl

/-- C2 amended: Node::new called with a config in which desired_listening_port
is None and allow_random_port is false panics (the source's explicit panic
branch, kept by its own should-panic test) rather than returning an Err
result. -/
theorem node_new_no_port_no_random_panics (cfg : NodeConfig) (c : Nat)
    (bind : Nat → BindOutcome)
    (h1 : cfg.desired_listening_port = none) (h2 : cfg.allow_random_port = false) :
    (node_new (some cfg) c bind).1 = .panicked := by
  cases hc : cfg.name <;> simp [node_new, resolveName, hc, nodeNewBind, h1, h2]

/-- Witness for C2 amended at a concrete config and bind oracle. -/
theorem node_new_no_port_no_random_panics_witness :
    ({ NodeConfig.default with allow_random_port := false }.desired_listening_port = none)
    ∧ ({ NodeConfig.default with allow_random_port := false }.allow_random_port = false)
    ∧ (node_new (some { NodeConfig.default with allow_random_port := false })
        5 bindOk).1 = .panicked :=
  ⟨rfl, rfl, node_new_no_port_no_random_panics _ 5 _ rfl rfl⟩

/-- C3 counterexample: with address 7 already connected, initiate_connection
returns Ok, not an AlreadyConnected error. -/
theorem initiate_connected_returns_ok_counterexample :
    (initiate_connection sampleConnectedState 7 (.ok ⟨2⟩)).1 = .ok := by
  decide

/-- C3 amended: for every address with is_connected true, initiate_connection
logs a warning and returns Ok(()) immediately, leaving the node state
unchanged: no error value is produced and no connection is attempted. -/
theorem initiate_connected_is_noop_ok (st : NodeState) (a : Addr) (c : ConnectOutcome)
    (h : st.connections.is_connected a = true) :
    initiate_connection st a c = (.ok, st) := by
  simp [initiate_connection, h]

/-- Witness for C3 amended at a concrete connected state. -/
theorem initiate_connected_is_noop_ok_witness :
    (sampleConnectedState.connections.is_connected 7 = true)
    ∧ initiate_connection sampleConnectedState 7 (.error 3)
        = (.ok, sampleConnectedState) :=
  ⟨by decide, initiate_connected_is_noop_ok _ 7 _ (by decide)⟩

/-- C4 counterexample: outbound_queue_depth is not among the options
recognized by NodeConfig in src/config.rs. -/
theorem no_outbound_queue_depth_option :
    nodeConfigOptions.contains ("outbound_queue_depth") = false := by
  decide

/-- C4 amended: NodeConfig recognizes no outbound_queue_depth option; its
recognized options are name, desired_listening_port, allow_random_port,
conn_read_buffer_size (default 65536) and inbound_message_queue_depth
(default 256). -/
theorem nodeConfig_options_and_defaults :
    nodeConfigOptions.contains ("outbound_queue_depth") = false
    ∧ nodeConfigOptions = ["name", "desired_listening_port", "allow_random_port",
        "conn_read_buffer_size", "inbound_message_queue_depth"]
    ∧ NodeConfig.default = ⟨none, none, true, 65536, 256⟩ :=
  ⟨by decide, rfl, rfl⟩

/-- C5: Node::new first tries the desired port when one is set and uses that
listener on success; if that bind fails and allow_random_port is true it
retries with port 0, using that listener when the retry succeeds and
propagating the retry error otherwise; if that bind fails and
allow_random_port is false, the bind error is returned to the caller. -/
theorem node_new_desired_port_bind (cfg : NodeConfig) (c : Nat)
    (bind : Nat → BindOutcome) (p : Nat)
    (hp : cfg.desired_listening_port = some p) :
    (∀ l, bind p = .ok l → (node_new (some cfg) c bind).1 = .ok l)
    ∧ (∀ e l, bind p = .error e → cfg.allow_random_port = true → bind 0 = .ok l →
        (node_new (some cfg) c bind).1 = .ok l)
    ∧ (∀ e e2, bind p = .error e → cfg.allow_random_port = true →
        bind 0 = .error e2 → (node_new (some cfg) c bind).1 = .ioError e2)
    ∧ (∀ e, bind p = .error e → cfg.allow_random_port = false →
        (node_new (some cfg) c bind).1 = .ioError e) := by
  have hport : ((resolveName cfg c).1).desired_listening_port = some p := by
    cases hc : cfg.name <;> simp [resolveName, hc, hp]
  have hrand : ((resolveName cfg c).1).allow_random_port = cfg.allow_random_port := by
    cases hc : cfg.name <;> simp [resolveName, hc]
  refine ⟨?_, ?_, ?_, ?_⟩
  · intro l hl
    simp [node_new, nodeNewBind, hport, hl]
  · intro e l he hr h0
    simp [node_new, nodeNewBind, hport, he, hrand, hr, h0]
  · intro e e2 he hr h0
    simp [node_new, nodeNewBind, hport, he, hrand, hr, h0]
  · intro e he hr
    simp [node_new, nodeNewBind, hport, he, hrand, hr]

/-- Witness for C5 at a concrete config whose desired port 9 is unavailable
and whose random fallback is disallowed. -/
theorem node_new_desired_port_bind_witness :
    (cfgPort9.desired_listening_port = some 9)
    ∧ (bindErr 9 = .error 5)
    ∧ (cfgPort9.allow_random_port = false)
    ∧ (node_new (some cfgPort9) 0 bindErr).1 = .ioError 5 :=
  ⟨rfl, rfl, rfl, (node_new_desired_port_bind cfgPort9 0 bindErr 9 rfl).2.2.2 5 rfl rfl⟩

/-- C6: a Connection is created in the handshaking map: adapt_stream, and with
it accept_connection and a successful initiate_connection to a fresh address,
inserts the new Connection into handshaking while leaving the handshaken map
unchanged (never directly into handshaken); and entries only leave the
handshaking map afterwards: promotion and disconnect never add an entry to
handshaking, so a connection moves handshaking to handshaken or is destroyed,
never back. -/
theorem connection_lifecycle_forward (st : NodeState) (stream : TcpStream) (a : Addr)
    (h : st.connections.is_connected a = false) :
    ((adapt_stream st stream a).connections.handshaking.lookup a
        = some ⟨stream.id, stream.id⟩
      ∧ (adapt_stream st stream a).connections.handshaken = st.connections.handshaken)
    ∧ ((accept_connection st stream a).connections.handshaking.lookup a
        = some ⟨stream.id, stream.id⟩
      ∧ (accept_connection st stream a).connections.handshaken
        = st.connections.handshaken)
    ∧ ((initiate_connection st a (.ok stream)).2.connections.handshaking.lookup a
        = some ⟨stream.id, stream.id⟩
      ∧ (initiate_connection st a (.ok stream)).2.connections.handshaken
        = st.connections.handshaken)
    ∧ (∀ (c : Connections) (x b : Addr) (conn : Connection),
        ((c.promote x).handshaking.lookup b = some conn →
          c.handshaking.lookup b = some conn)
        ∧ (((c.disconnect x).2).handshaking.lookup b = some conn →
          c.handshaking.lookup b = some conn)) := by
  refine ⟨⟨?_, rfl⟩, ⟨?_, rfl⟩, ⟨?_, ?_⟩, ?_⟩
  · simp [adapt_stream, Connections.insertHandshaking, List.lookup]
  · simp [accept_connection, adapt_stream, Connections.insertHandshaking, List.lookup]
  · simp [initiate_connection, h, adapt_stream, Connections.insertHandshaking, List.lookup]
  · simp [initiate_connection, h, adapt_stream, Connections.insertHandshaking]
  · intro c x b conn
    constructor
    · intro hlk
      cases hm : c.handshaking.lookup x with
      | none =>
        simpa [Connections.promote, hm] using hlk
      | some conn0 =>
        simp only [Connections.promote, hm] at hlk
        by_cases hbx : b = x
        · subst hbx
          rw [lookup_filter_self] at hlk
          exact absurd hlk (by simp)
        · rwa [lookup_filter_ne _ _ _ hbx] at hlk
    · intro hlk
      simp only [Connections.disconnect] at hlk
      by_cases hbx : b = x
      · subst hbx
        rw [lookup_filter_self] at hlk
        exact absurd hlk (by simp)
      · rwa [lookup_filter_ne _ _ _ hbx] at hlk

/-- Witness for C6 at the empty state and a concrete stream and address. -/
theorem connection_lifecycle_forward_witness :
    (emptyState.connections.is_connected 7 = false)
    ∧ (adapt_stream emptyState ⟨3⟩ 7).connections.handshaking.lookup 7 = some ⟨3, 3⟩ :=
  ⟨by decide, (connection_lifecycle_forward emptyState ⟨3⟩ 7 (by decide)).1.1⟩

/-- C7: Node::disconnect returns true exactly when an entry for the address
was present (and hence removed); the resulting state is no longer connected
to that address, so a second disconnect with no intervening reconnection
returns false. -/
theorem disconnect_true_iff_removed (st : NodeState) (a : Addr) :
    ((st.disconnect a).1 = st.connections.is_connected a)
    ∧ ((st.disconnect a).2.connections.is_connected a = false)
    ∧ (((st.disconnect a).2.disconnect a).1 = false) := by
  refine ⟨rfl, ?_, ?_⟩ <;>
    simp [NodeState.disconnect, Connections.disconnect, Connections.is_connected,
      lookup_filter_self]

/-- C8: Node::disconnect never touches the KnownPeers registry: the stats map
after a disconnect is exactly the one before, whether or not a connection
entry was removed. -/
theorem disconnect_preserves_known_peers (st : NodeState) (a : Addr) :
    (st.disconnect a).2.knownPeers = st.knownPeers := rfl

/-- C9 counterexample: adapt_stream receives no ConnectionSide, so the same
stream accepted at an address and initiated to that address produces the very
same node state: the stored Connection records no Responder or Initiator tag
distinguishing the two origins. -/
theorem accept_and_initiate_store_identical_connection :
    (initiate_connection emptyState 7 (.ok ⟨3⟩)).2 = accept_connection emptyState ⟨3⟩ 7 := by
  decide

/-- C9 amended: the source's adapt_stream takes no ConnectionSide parameter
and Connection::new is called with only the reader-task handle, the writer
half and the node, so no side tag is set at socket creation: the accept loop
and initiate_connection both call adapt_stream(stream, addr), and for a
not-yet-connected address the resulting states are identical regardless of
which origin produced the stream. -/
theorem adapt_stream_has_no_side (st : NodeState) (stream : TcpStream) (a : Addr)
    (h : st.connections.is_connected a = false) :
    (initiate_connection st a (.ok stream)).2 = accept_connection st stream a := by
  simp [initiate_connection, h, accept_connection]

/-- Witness for C9 amended at the empty state. -/
theorem adapt_stream_has_no_side_witness :
    (emptyState.connections.is_connected 9 = false)
    ∧ (initiate_connection emptyState 9 (.ok ⟨4⟩)).2 = accept_connection emptyState ⟨4⟩ 9 :=
  ⟨by decide, adapt_stream_has_no_side emptyState ⟨4⟩ 9 (by decide)⟩

/-- C10: after Node::new the resolved config name is always Some, so
Node::name's unwrap cannot panic; an unnamed config receives the decimal
string of the process-wide sequential counter, the next unnamed node receives
the decimal string of the incremented counter, and the two names are
distinct. -/
theorem node_name_some_and_distinct (cfg cfg2 : NodeConfig) (c : Nat)
    (bind bind2 : Nat → BindOutcome)
    (h1 : cfg.name = none) (h2 : cfg2.name = none) :
    (∀ (cfg0 : Option NodeConfig) (c0 : Nat) (b0 : Nat → BindOutcome),
        ((node_new cfg0 c0 b0).2.1.name).isSome = true)
    ∧ ((node_new (some cfg) c bind).2.1.name = some (natDecimalString c))
    ∧ ((node_new (some cfg2) (node_new (some cfg) c bind).2.2 bind2).2.1.name
        = some (natDecimalString (c + 1)))
    ∧ ((node_new (some cfg) c bind).2.1.name
        ≠ (node_new (some cfg2) (node_new (some cfg) c bind).2.2 bind2).2.1.name) := by
  have e2 : (node_new (some cfg) c bind).2.1.name = some (natDecimalString c) := by
    simp [node_new, resolveName, h1]
  have e3 : (node_new (some cfg2) (node_new (some cfg) c bind).2.2 bind2).2.1.name
      = some (natDecimalString (c + 1)) := by
    simp [node_new, resolveName, h1, h2]
  refine ⟨?_, e2, e3, ?_⟩
  · intro cfg0 c0 b0
    cases hc : (cfg0.getD NodeConfig.default).name <;> simp [node_new, resolveName, hc]
  · rw [e2, e3]
    intro heq
    have := natDecimalString_injective c (c + 1) (Option.some.inj heq)
    omega

/-- Witness for C10: two unnamed default-config nodes created in sequence
from counter 0 receive distinct names. -/
theorem node_name_some_and_distinct_witness :
    (NodeConfig.default.name = none)
    ∧ ((node_new (some NodeConfig.default) 0 bindOk).2.1.name
        ≠ (node_new (some NodeConfig.default)
            (node_new (some NodeConfig.default) 0 bindOk).2.2 bindOk).2.1.name) :=
  ⟨rfl, (node_name_some_and_distinct NodeConfig.default NodeConfig.default 0
      bindOk bindOk rfl rfl).2.2.2⟩

end Pea2pea
